import Mathlib

/-!
Verification of the VCR MCP server pipeline and the render-plan validator.

The Python sources are shallowly embedded over `List Char`:
pure string-processing functions (`_extract_yaml`, the slug computation,
`validate_plan.py`'s `parse_sections` / `parse_render_plan_table` /
`extract_cli_commands` / `validate_schema`) become Lean functions on
character lists; the stateful tool functions (`render_video_from_prompt`,
`vcr_execute_plan`, `validate_vcr_manifest`, `vcr_render_plan`) become
functions of an explicit environment record that supplies the outcome of
each external effect (sqlite read, HTTP call, subprocess invocation), and
return the tool result together with the ordered trace of spawned
subprocesses and side effects.  Python exceptions are modelled with
`Except`; a `.error` result is an exception that escaped the function.

Character classes (`\s`, `\w`, `\d`) and `str.lower`/`str.strip` are
modelled at the ASCII/common-Unicode-whitespace level, matching CPython on
the ASCII inputs all claims are about.
-/

namespace VCR

abbrev Chars := List Char

set_option maxRecDepth 40000 in
set_option maxHeartbeats 1000000 in
/-- Python whitespace for `str.strip()` / regex `\s` (ASCII part plus the
common Unicode whitespace code points). -/
def isPySpace (c : Char) : Bool :=
  c = ' ' || c = '\t' || c = '\n' || c = '\r' || c = '\x0b' || c = '\x0c' ||
  c = '\x1c' || c = '\x1d' || c = '\x1e' || c = '\x1f' || c = '\x85' ||
  c = '\xa0' || c = '\u1680' || ('\u2000' ≤ c && c ≤ '\u200a') ||
  c = '\u2028' || c = '\u2029' || c = '\u202f' || c = '\u205f' || c = '\u3000'

/-- Regex `\w` (word character), ASCII model. -/
def isPyWord (c : Char) : Bool :=
  ('a' ≤ c && c ≤ 'z') || ('A' ≤ c && c ≤ 'Z') || ('0' ≤ c && c ≤ '9') || c = '_'

/-- `str.strip()` from the left. -/
def stripLead (s : Chars) : Chars := s.dropWhile isPySpace

/-- `str.strip()` from the right. -/
def stripTrail (s : Chars) : Chars := ((s.reverse).dropWhile isPySpace).reverse

/-- Python `str.strip()` (no arguments: strips whitespace on both ends). -/
def pyStrip (s : Chars) : Chars := stripTrail (stripLead s)

/-- Python `str.lower()` (ASCII model; `Char.toLower` maps `A`-`Z`). -/
def pyLower (s : Chars) : Chars := s.map Char.toLower

/-- Boolean prefix test on character lists. -/
def isPre : Chars → Chars → Bool
  | [], _ => true
  | _ :: _, [] => false
  | a :: p, b :: t => a = b && isPre p t

/-- Python `pat in s` (substring containment). -/
def containsSub (pat : Chars) : Chars → Bool
  | [] => isPre pat []
  | c :: t => isPre pat (c :: t) || containsSub pat t

/-- The suffix of `s` beginning at the first occurrence of `pat`
(`s[s.index(pat):]`); `[]` when there is no occurrence. -/
def suffixFromSub (pat : Chars) : Chars → Chars
  | [] => if isPre pat [] then [] else []
  | c :: t => if isPre pat (c :: t) then c :: t else suffixFromSub pat t

/-- `s.split(pat)[0]`: the part of `s` before the first occurrence of `pat`
(all of `s` when there is no occurrence). -/
def takeToSub (pat : Chars) : Chars → Chars
  | [] => []
  | c :: t => if isPre pat (c :: t) then [] else c :: takeToSub pat t

/-- Count occurrences of one character (`str.count` for a 1-char needle). -/
def countCh (x : Char) (s : Chars) : Nat := (s.filter (fun c => c = x)).length

/-- Split on `'\n'` exactly like Python `str.split("\n")` (keeps empty pieces). -/
def splitNl : Chars → List Chars
  | [] => [[]]
  | c :: t =>
    if c = '\n' then [] :: splitNl t
    else match splitNl t with
      | [] => [[c]]
      | l :: ls => (c :: l) :: ls

-- ── `_extract_yaml` (server.py, lines 313-326) ──────────────────────────────

/-- The search for the fenced-block fallback
`re.search(r"(three backticks)(?:yaml)?\n?(.*?)(three backticks)", content, re.DOTALL)`:
at the leftmost position where the opening fence matches and a closing fence
follows, return the (lazy, hence shortest) captured group. -/
def fencedSearch : Chars → Option Chars
  | [] => none
  | c :: t =>
    if isPre "```".toList (c :: t) then
      let u1 := (c :: t).drop 3
      let u2 := if isPre "yaml".toList u1 then u1.drop 4 else u1
      let u3 := if u2.head? = some '\n' then u2.drop 1 else u2
      if containsSub "```".toList u3 then some (takeToSub "```".toList u3)
      else fencedSearch t
    else fencedSearch t

/-- `_extract_yaml` from server.py: prefer the first `version:` marker
(truncated at the next fence), else the first fenced code block, else the
trimmed raw text. -/
def extract_yaml (content : Chars) : Chars :=
  if containsSub "version:".toList content then
    let yamlText := suffixFromSub "version:".toList content
    let yamlText :=
      if containsSub "```".toList yamlText then takeToSub "```".toList yamlText
      else yamlText
    pyStrip yamlText
  else
    match fencedSearch content with
    | some g => pyStrip g
    | none => pyStrip content

/-- The literal completion-text fixture named by the spec's extraction
precedence property. -/
def c1_fixture : Chars :=
  ("Sure, here:\n```yaml\nversion: 2\n```\nversion: 1\nlayers: []").toList

-- ── the slug computation (server.py, lines 546-547 and 698-699) ─────────────

/-- Regex class `[a-z0-9]` used by the slug computation. -/
def isSlugGood (c : Char) : Bool :=
  ('a' ≤ c && c ≤ 'z') || ('0' ≤ c && c ≤ '9')

/-- `re.sub(r"[^a-z0-9]+", "_", s)`, one structural pass: the flag records
whether we are inside a run of characters outside `[a-z0-9]` whose
underscore has already been emitted. -/
def subBadRunsAux : Bool → Chars → Chars
  | _, [] => []
  | inBad, c :: t =>
    if isSlugGood c then c :: subBadRunsAux false t
    else if inBad then subBadRunsAux true t
    else '_' :: subBadRunsAux true t

/-- `re.sub(r"[^a-z0-9]+", "_", s)`: replace each maximal run of characters
outside `[a-z0-9]` by a single underscore. -/
def subBadRuns (s : Chars) : Chars := subBadRunsAux false s

/-- Python `s.strip("_")`. -/
def stripUnder (s : Chars) : Chars :=
  (((s.dropWhile (fun c => c = '_')).reverse).dropWhile (fun c => c = '_')).reverse

/-- The slug from `vcr_render_plan` / `vcr_synthesize_manifest`:
`re.sub(r"[^a-z0-9]+", "_", prompt.lower().strip())[:40].strip("_")`. -/
def slugOf (prompt : Chars) : Chars :=
  stripUnder ((subBadRuns (pyStrip (pyLower prompt))).take 40)

/-- The slug as described by the spec (independent formulation, used for
refinement):  collapse implemented as a right fold. -/
def collapseRunsSpec (s : Chars) : Chars :=
  s.foldr
    (fun c acc =>
      if isSlugGood c then c :: acc
      else if acc.head? = some '_' then acc else '_' :: acc) []

/-- The amended spec slug: lowercase, strip whitespace, collapse runs
outside `[a-z0-9]` to one underscore, truncate to 40, trim underscores. -/
def slug_spec (prompt : Chars) : Chars :=
  stripUnder ((collapseRunsSpec (pyStrip (pyLower prompt))).take 40)

/-- The slug exactly as the original claim words it (no whitespace-strip
step between lowercasing and collapsing). -/
def slug_claim (prompt : Chars) : Chars :=
  stripUnder ((collapseRunsSpec (pyLower prompt)).take 40)

-- ── server-side data model: tool invocations, exceptions, events ────────────

/-- The result of a completed subprocess (`subprocess.CompletedProcess`). -/
structure RunRes where
  returncode : Int
  stdout : String
  stderr : String
deriving DecidableEq

/-- Python exceptions that can escape the embedded functions.
`subprocess.run(..., timeout=...)` raises `TimeoutExpired` (after killing
the child); nothing in `_run` or its callers catches it. -/
inductive PyExc
  | timeoutExpired
deriving DecidableEq

/-- Observable side effects of a tool invocation, in program order:
`run` is a blocking `_run`/`subprocess.run` call, `spawn` is
`asyncio.create_subprocess_exec`. -/
inductive Ev
  | run (argv : List String)
  | spawn (argv : List String)
  | kill
  | httpGet (url : String)
  | httpPost (url : String)
  | fileWrite (path : String) (content : String)
  | fileUnlink (path : String)
deriving DecidableEq

-- ── `vcr_render_plan` (server.py, lines 497-601) ────────────────────────────

/-- The `render_plan` table of a plan produced by `vcr_render_plan`. -/
structure RenderPlanRec where
  resolution : String
  fps : Int
  duration : Rat
  backend : String
  alpha : Bool
  prores_profile : String
  determinism_mode : String
deriving DecidableEq

/-- The structured plan document `vcr_render_plan` serialises to JSON. -/
structure PlanDoc where
  intent_summary : String
  render_plan : RenderPlanRec
  cli_commands : List String
  expected_outputs : List String
  validation_steps : List String
  manifest_validation : Option String
  required_assets : Option String
deriving DecidableEq

/-- Tool outcome: an error message string, or the plan document. -/
inductive RpOut
  | errMsg (s : String)
  | plan (p : PlanDoc)
deriving DecidableEq

/-- Environment oracle for `vcr_render_plan`: outcome of binary lookup,
manifest resolution and the `vcr check` subprocess. -/
structure RpEnv where
  vcrBinary : Except String String
  manifestResolve : Except String String
  checkRes : Except PyExc RunRes

/-- Python `x or default` for optional string arguments (`None` and `""`
are both falsy). -/
def orDefault (o : Option String) (d : String) : String :=
  match o with
  | some s => if s = "" then d else s
  | none => d

/-- `vcr_render_plan` from server.py.  Returns the structured result plus
the trace of subprocess invocations; a `.error` is a Python exception that
escaped (only `TimeoutExpired` from `_run` can). -/
def vcr_render_plan (env : RpEnv) (prompt : String) (resolution : Option String)
    (fps : Option Int) (duration : Option Rat) (alpha : Option Bool)
    (backend : Option String) (manifest_path : Option String) :
    Except PyExc (RpOut × List Ev) :=
  let res := orDefault resolution "1920x1080"
  let _fpsVal : Int := match fps with | some n => if n ≠ 0 then n else 24 | none => 24
  let _dur : Rat := match duration with | some d => if d ≠ 0 then d else 5 | none => 5
  let alphaVal := alpha.getD false
  let backendVal := orDefault backend "software"
  if backendVal ∉ ["software", "gpu", "auto"] then
    .ok (.errMsg ("ERROR: backend must be \x27software\x27, \x27gpu\x27, or \x27auto\x27, got \x27"
      ++ backendVal ++ "\x27"), [])
  else
    let prores := if alphaVal then "4444" else "422hq"
    let slug := String.mk (slugOf prompt.toList)
    let output_path := "renders/" ++ slug ++ ".mov"
    let rp : RenderPlanRec :=
      { resolution := res, fps := _fpsVal, duration := _dur,
        backend := backendVal, alpha := alphaVal, prores_profile := prores,
        determinism_mode := if backendVal = "software" then "on" else "off" }
    let vsteps := ["test -f " ++ output_path,
      "ffprobe -v error -select_streams v:0 -show_entries stream=codec_name,pix_fmt "
        ++ output_path]
    let mpStr := manifest_path.getD ""
    if mpStr ≠ "" then
      match env.vcrBinary with
      | .error e => .ok (.errMsg ("ERROR: " ++ e), [])
      | .ok vcr =>
        match env.manifestResolve with
        | .error e => .ok (.errMsg ("ERROR: " ++ e), [])
        | .ok manifestAbs =>
          match env.checkRes with
          | .error ex => .error ex
          | .ok ck =>
            if ck.returncode ≠ 0 then
              .ok (.plan
                { intent_summary := prompt, render_plan := rp,
                  cli_commands := [], expected_outputs := [output_path],
                  validation_steps := vsteps,
                  manifest_validation := some ("FAILED: "
                    ++ String.mk (pyStrip (ck.stdout ++ ck.stderr).toList)),
                  required_assets := none },
                [Ev.run [vcr, "check", manifestAbs]])
            else
              .ok (.plan
                { intent_summary := prompt, render_plan := rp,
                  cli_commands := ["vcr check " ++ mpStr,
                    "vcr build " ++ mpStr ++ " -o " ++ output_path
                      ++ " --backend " ++ backendVal],
                  expected_outputs := [output_path],
                  validation_steps := vsteps ++
                    (if alphaVal then ["Expect pix_fmt=yuva444p10le (alpha present)"]
                     else []),
                  manifest_validation := some "PASSED",
                  required_assets := none },
                [Ev.run [vcr, "check", manifestAbs]])
    else
      .ok (.plan
        { intent_summary := prompt, render_plan := rp,
          cli_commands := ["vcr check <MANIFEST_PATH>",
            "vcr build <MANIFEST_PATH> -o " ++ output_path
              ++ " --backend " ++ backendVal],
          expected_outputs := [output_path],
          validation_steps := vsteps ++
            (if alphaVal then ["Expect pix_fmt=yuva444p10le (alpha present)"]
             else []),
          manifest_validation := none,
          required_assets := some
            "A .vcr manifest matching this request. Write it, then validate with: vcr check <file>" },
        [])

/-- A trivial environment for concrete `vcr_render_plan` calls that never
reach the manifest-validation branch. -/
def rpEnv0 : RpEnv :=
  { vcrBinary := .ok "vcr", manifestResolve := .ok "m.vcr",
    checkRes := .ok { returncode := 0, stdout := "", stderr := "" } }

/-- The C9 counterexample prompt: one leading space then 41 `a`s, so the
whitespace-strip performed by the code shifts the 40-character truncation
window relative to the claim's recipe. -/
def c9_prompt : String := " aaaaaaaaaaaaaaaaaaaaaaaaaaaaaaaaaaaaaaaaa"

/-- Decidable equality for `Except`, needed to evaluate embedded tool
results on concrete inputs. -/
instance {m : Type} {a : Type} [DecidableEq m] [DecidableEq a] :
    DecidableEq (Except m a) := fun x y =>
  match x, y with
  | .ok u, .ok v =>
    if h : u = v then .isTrue (by rw [h]) else .isFalse (by simp [h])
  | .error e, .error f =>
    if h : e = f then .isTrue (by rw [h]) else .isFalse (by simp [h])
  | .ok _, .error _ => .isFalse (by simp)
  | .error _, .ok _ => .isFalse (by simp)

/-- The plan `vcr_render_plan` produces for the spec's example prompt with
all-default arguments (checked by `decide` against the embedding). -/
def c6_default_plan : PlanDoc :=
  { intent_summary := "a red circle growing",
    render_plan :=
      { resolution := "1920x1080", fps := 24, duration := 5,
        backend := "software", alpha := false, prores_profile := "422hq",
        determinism_mode := "on" },
    cli_commands := ["vcr check <MANIFEST_PATH>",
      "vcr build <MANIFEST_PATH> -o renders/a_red_circle_growing.mov --backend software"],
    expected_outputs := ["renders/a_red_circle_growing.mov"],
    validation_steps := ["test -f renders/a_red_circle_growing.mov",
      "ffprobe -v error -select_streams v:0 -show_entries stream=codec_name,pix_fmt renders/a_red_circle_growing.mov"],
    manifest_validation := none,
    required_assets := some "A .vcr manifest matching this request. Write it, then validate with: vcr check <file>" }

-- ── `render_video_from_prompt` (server.py, lines 344-494) ───────────────────

/-- Outcome of the HTTP POST to the chat-completions endpoint: the three
caught `httpx` exceptions, or a response whose `choices` carry the listed
message contents. -/
inductive PostOut
  | connectErr
  | httpErr (code : Nat) (body : String)
  | timedOut
  | ok (choices : List String)
deriving DecidableEq

/-- Outcome of an awaited `asyncio.create_subprocess_exec` build:
`asyncio.TimeoutError` (caught, process killed) or completion. -/
inductive BuildOut
  | timedOut
  | done (returncode : Int) (stdout : String) (stderr : String)
deriving DecidableEq

/-- Process-wide configuration read from the environment at start. -/
structure Cfg where
  endpointUrl : String
  model : String
  projectRoot : String

/-- Environment oracle for `render_video_from_prompt`, one field per
external effect in pipeline order.  `brainRead` takes the truthiness of
`context_ids` (the two sqlite queries differ) and returns the rows or the
exception message bound by the `except` clause. -/
structure RvpEnv where
  brainDbExists : Bool
  brainRead : Bool → Except String (List String)
  modelsResp : Except String (List String)
  postResp : PostOut
  vcrBinary : Except String String
  checkRes : Except PyExc RunRes
  buildRes : BuildOut

/-- Python truthiness of the `context_ids` argument (`if context_ids:`). -/
def ctxTruthy (ids : Option (List String)) : Bool :=
  match ids with
  | some (_ :: _) => true
  | _ => false

/-- Step 1 of `render_video_from_prompt` (lines 364-382): gather context
from brain.db; a missing store yields the empty context, a read failure
degrades to the diagnostic placeholder string. -/
def gatherContext (env : RvpEnv) (ids : Option (List String)) : String :=
  if env.brainDbExists then
    match env.brainRead (ctxTruthy ids) with
    | .ok rows => String.intercalate "\n" rows
    | .error e => "(brain.db read failed: " ++ e ++ ")"
  else ""

/-- `_resolve_model` (lines 329-341): the configured model when set,
else the first id from `GET /models`, else `local-model`. -/
def resolve_model (cfg : Cfg) (env : RvpEnv) : String × List Ev :=
  if cfg.model ≠ "" then (cfg.model, [])
  else
    ((match env.modelsResp with
      | .ok (m :: _) => m
      | .ok [] => "local-model"
      | .error _ => "local-model"),
     [Ev.httpGet (cfg.endpointUrl ++ "/models")])

/-- The build-progress scan (lines 484-487): stripped stderr lines
containing `rendered frame`. -/
def renderedFrameLines (stderr : String) : List String :=
  (splitNl stderr.toList).filterMap (fun l =>
    let st := pyStrip l
    if containsSub "rendered frame".toList st then some (String.mk st)
    else none)

/-- `render_video_from_prompt` from server.py: the full pipeline as a
function of the environment oracle, returning (result-or-escaped-exception,
subprocess/effect trace, status log). -/
def render_video_from_prompt (cfg : Cfg) (env : RvpEnv) (prompt : String)
    (context_ids : Option (List String)) :
    Except PyExc String × List Ev × List String :=
  let ctx := gatherContext env context_ids
  let log1 := ["Reading Intelligence Tree...", "Syncing with LLM provider..."]
  let mev := resolve_model cfg env
  let log2 := log1 ++ ["Thinking... (model: " ++ mev.1 ++ ")"]
  let _userMessage := "Creative Context from Intelligence Tree:\n" ++ ctx
    ++ "\n\nUser Request: " ++ prompt ++ "\n\nGenerate the YAML manifest now:"
  let evs2 := mev.2 ++ [Ev.httpPost (cfg.endpointUrl ++ "/chat/completions")]
  match env.postResp with
  | .connectErr =>
    (.ok ("ERROR: Could not connect to LLM at " ++ cfg.endpointUrl
      ++ ".\n\nEnsure your LLM provider is running (e.g. LM Studio on 127.0.0.1:1234). "
      ++ "Set VCR_LLM_ENDPOINT, VCR_LLM_MODEL, and optionally VCR_LLM_API_KEY."),
     evs2, log2)
  | .httpErr code body =>
    (.ok ("ERROR: LLM returned HTTP " ++ toString code ++ ": "
      ++ String.mk (body.toList.take 500)), evs2, log2)
  | .timedOut =>
    (.ok "ERROR: LLM request timed out after 90 seconds.", evs2, log2)
  | .ok choices =>
    match choices with
    | [] => (.ok "ERROR: LLM returned empty response (no choices).", evs2, log2)
    | content :: _ =>
      let yaml := extract_yaml content.toList
      if yaml.isEmpty then
        (.ok "ERROR: Could not extract YAML manifest from LLM response.",
         evs2, log2)
      else
        match env.vcrBinary with
        | .error e => (.ok ("ERROR: " ++ e), evs2, log2)
        | .ok vcr =>
          let manifestPath := cfg.projectRoot ++ "/agent_manifest.yaml"
          let evs3 := evs2 ++ [Ev.fileWrite manifestPath (String.mk yaml),
            Ev.run [vcr, "check", manifestPath]]
          match env.checkRes with
          | .error ex => (.error ex, evs3, log2)
          | .ok ck =>
            if ck.returncode ≠ 0 then
              (.ok ("SCHEMA VALIDATION FAILED (manifest rejected):\n"
                ++ String.mk (pyStrip (ck.stdout ++ ck.stderr).toList)
                ++ "\n\nGenerated YAML:\n" ++ String.mk yaml
                ++ "\n\nFix schema errors and retry, or use validate_vcr_manifest to debug."),
               evs3, log2)
            else
              let log3 := log2 ++ ["Manifest validated. Starting GPU render..."]
              let outputPath := cfg.projectRoot ++ "/renders/agentic_result.mov"
              let evs4 := evs3 ++ [Ev.spawn [vcr, "build", manifestPath, "-o", outputPath]]
              match env.buildRes with
              | .timedOut =>
                (.ok "ERROR: Render timed out after 180 seconds.",
                 evs4 ++ [Ev.kill], log3)
              | .done rc bout berr =>
                let log4 := log3 ++ renderedFrameLines berr
                if rc ≠ 0 then
                  (.ok ("RENDER FAILED (exit " ++ toString rc ++ "):\n"
                    ++ String.mk (pyStrip (bout ++ berr).toList)), evs4, log4)
                else
                  (.ok ("RENDER COMPLETE\nOutput: " ++ outputPath
                    ++ "\n\nLog:\n" ++ String.intercalate "\n" log4),
                   evs4, log4)

-- ── `vcr_execute_plan` (server.py, lines 726-798) ───────────────────────────

/-- `Path.stem`: the final path component without its last extension. -/
def stemOf (p : String) : String :=
  let name := ((splitNl (p.toList.map (fun c => if c = '/' then '\n' else c))).getLast?).getD []
  let r := name.reverse
  let pre := r.takeWhile (fun c => c ≠ '.')
  if pre.length = r.length then String.mk name
  else
    let rest := ((r.drop (pre.length + 1))).reverse
    if rest = [] then String.mk name else String.mk rest

/-- Environment oracle for `vcr_execute_plan`. -/
structure EpEnv where
  vcrBinary : Except String String
  manifestResolve : Except String String
  checkRes : Except PyExc RunRes
  buildRes : BuildOut

/-- `vcr_execute_plan` from server.py: `vcr check`, then `vcr build`,
returning (result-or-escaped-exception, subprocess trace).  The final
JSON result string is abstracted to a flat rendering of its fields. -/
def vcr_execute_plan (cfg : Cfg) (env : EpEnv) (manifest_path : String)
    (output : Option String) (backend : String) :
    Except PyExc String × List Ev :=
  if backend ∉ ["software", "gpu", "auto"] then
    (.ok ("ERROR: backend must be \x27software\x27, \x27gpu\x27, or \x27auto\x27, got \x27"
      ++ backend ++ "\x27"), [])
  else
    match env.vcrBinary with
    | .error e =>
      (.ok ("ERROR: " ++ e
        ++ "\n\nRun `vcr doctor` to verify the VCR binary and dependencies."), [])
    | .ok vcr =>
      match env.manifestResolve with
      | .error e =>
        (.ok ("ERROR: " ++ e
          ++ "\n\nRun `vcr doctor` to verify the VCR binary and dependencies."), [])
      | .ok manifestAbs =>
        let evs1 := [Ev.run [vcr, "check", manifestAbs]]
        match env.checkRes with
        | .error ex => (.error ex, evs1)
        | .ok ck =>
          if ck.returncode ≠ 0 then
            (.ok ("VALIDATION FAILED:\n"
              ++ String.mk (pyStrip (ck.stdout ++ ck.stderr).toList)
              ++ "\n\nFix the manifest and retry. Use validate_vcr_manifest to debug schema errors."),
             evs1)
          else
            let outPath := match output with
              | some o => if o = "" then "renders/" ++ stemOf manifestAbs ++ ".mov" else o
              | none => "renders/" ++ stemOf manifestAbs ++ ".mov"
            let outputAbs :=
              if isPre ["/".toList.headD '/'] outPath.toList then outPath
              else cfg.projectRoot ++ "/" ++ outPath
            let evs2 := evs1 ++ [Ev.spawn [vcr, "build", manifestAbs, "-o",
              outputAbs, "--backend", backend]]
            match env.buildRes with
            | .timedOut =>
              (.ok "ERROR: Render timed out after 300 seconds.",
               evs2 ++ [Ev.kill])
            | .done rc bout berr =>
              if rc ≠ 0 then
                (.ok ("RENDER FAILED (exit " ++ toString rc ++ "):\n"
                  ++ String.mk (pyStrip (bout ++ berr).toList)
                  ++ "\n\nRun `vcr doctor` to verify FFmpeg and GPU dependencies."),
                 evs2)
              else
                (.ok ("RENDER COMPLETE output=" ++ outputAbs
                  ++ " manifest=" ++ manifest_path ++ " backend=" ++ backend
                  ++ " commands=[vcr check " ++ manifest_path
                  ++ ", vcr build " ++ manifest_path ++ " -o " ++ outPath
                  ++ " --backend " ++ backend ++ "]"), evs2)

-- ── `validate_vcr_manifest` (server.py, lines 168-215) and `_run` ───────────

/-- Environment oracle for `validate_vcr_manifest`: binary lookup, the
temp-file path, and the outcome of the blocking `_run` calls for `vcr
check` and `vcr lint` — `.error .timeoutExpired` is the `TimeoutExpired`
that `subprocess.run(..., timeout=...)` raises and `_run` does not catch. -/
structure VmEnv where
  vcrBinary : Except String String
  tmpPath : String
  checkRes : Except PyExc RunRes
  lintRes : Except PyExc RunRes

/-- `validate_vcr_manifest` from server.py.  The `try/finally` around the
body runs `os.unlink` and re-raises: a `.error` outcome is an exception
that escaped the tool function. -/
def validate_vcr_manifest (env : VmEnv) (manifest_yaml : String)
    (run_lint : Bool) : Except PyExc String × List Ev :=
  match env.vcrBinary with
  | .error e =>
    (.ok ("ERROR: " ++ e
      ++ "\n\nRun `vcr doctor` or `cargo build` in the VCR project root."), [])
  | .ok vcr =>
    let evs0 := [Ev.fileWrite env.tmpPath manifest_yaml,
      Ev.run [vcr, "check", env.tmpPath]]
    match env.checkRes with
    | .error ex => (.error ex, evs0 ++ [Ev.fileUnlink env.tmpPath])
    | .ok ck =>
      if ck.returncode ≠ 0 then
        (.ok ("SCHEMA VALIDATION FAILED (vcr check):\n"
          ++ String.mk (pyStrip (ck.stdout ++ ck.stderr).toList)
          ++ "\n\nFix schema errors (typos, unknown fields, invalid values) and retry."),
         evs0 ++ [Ev.fileUnlink env.tmpPath])
      else if run_lint then
        let evs1 := evs0 ++ [Ev.run [vcr, "lint", env.tmpPath]]
        match env.lintRes with
        | .error ex => (.error ex, evs1 ++ [Ev.fileUnlink env.tmpPath])
        | .ok lr =>
          if lr.returncode ≠ 0 then
            (.ok ("SCHEMA OK (vcr check passed)\n\nLINT WARNINGS (vcr lint — unreachable layers):\n"
              ++ String.mk (pyStrip (lr.stdout ++ lr.stderr).toList)
              ++ "\n\nUnreachable layers never become visible. Consider removing them or fixing timing/opacity."),
             evs1 ++ [Ev.fileUnlink env.tmpPath])
          else
            (.ok ("OK: Manifest is valid. Schema (vcr check) passed."
              ++ " Lint (vcr lint) passed."),
             evs1 ++ [Ev.fileUnlink env.tmpPath])
      else
        (.ok "OK: Manifest is valid. Schema (vcr check) passed.",
         evs0 ++ [Ev.fileUnlink env.tmpPath])

-- ── predicates about event traces (for the schema-gate claims) ──────────────

/-- A `vcr build` subprocess spawn. -/
def isBuildEv : Ev → Bool
  | .spawn (_ :: s :: _) => s = "build"
  | _ => false

/-- No build subprocess occurs in the trace. -/
def noBuild (evs : List Ev) : Prop := ∀ e ∈ evs, isBuildEv e = false

/-- Some build subprocess occurs in the trace. -/
def buildIssued (evs : List Ev) : Prop := ∃ e ∈ evs, isBuildEv e = true

/-- A blocking `vcr check` invocation. -/
def isCheckEv : Ev → Bool
  | .run (_ :: s :: _) => s = "check"
  | _ => false

/-- Every build in the trace is preceded by a `check` invocation. -/
def buildGuarded (evs : List Ev) : Prop :=
  ∀ l1 e l2, evs = l1 ++ e :: l2 → isBuildEv e = true →
    ∃ c ∈ l1, isCheckEv c = true

/-- A fixed configuration for concrete witness runs. -/
def cfg0 : Cfg :=
  { endpointUrl := "http://127.0.0.1:1234/v1", model := "m1",
    projectRoot := "/proj" }

/-- Concrete `render_video_from_prompt` environment: check fails. -/
def rvpEnvCheckFail : RvpEnv :=
  { brainDbExists := false, brainRead := fun _ => .ok [],
    modelsResp := .ok ["m1"], postResp := .ok ["version: 1\nlayers: []"],
    vcrBinary := .ok "vcr",
    checkRes := .ok { returncode := 1, stdout := "", stderr := "bad" },
    buildRes := .done 0 "" "" }

/-- Concrete `render_video_from_prompt` environment: everything succeeds,
no brain.db store present. -/
def rvpEnvOk : RvpEnv :=
  { brainDbExists := false, brainRead := fun _ => .ok [],
    modelsResp := .ok ["m1"], postResp := .ok ["version: 1\nlayers: []"],
    vcrBinary := .ok "vcr",
    checkRes := .ok { returncode := 0, stdout := "", stderr := "" },
    buildRes := .done 0 "" "" }

/-- Concrete environment whose brain.db read raises. -/
def rvpEnvReadFail : RvpEnv :=
  { brainDbExists := true, brainRead := fun _ => .error "disk error",
    modelsResp := .ok ["m1"], postResp := .ok ["version: 1\nlayers: []"],
    vcrBinary := .ok "vcr",
    checkRes := .ok { returncode := 0, stdout := "", stderr := "" },
    buildRes := .done 0 "" "" }

/-- Concrete `vcr_execute_plan` environment: check fails. -/
def epEnvCheckFail : EpEnv :=
  { vcrBinary := .ok "vcr", manifestResolve := .ok "/proj/demo.vcr",
    checkRes := .ok { returncode := 2, stdout := "", stderr := "schema" },
    buildRes := .done 0 "" "" }

/-- Concrete `validate_vcr_manifest` environment whose `vcr check`
invocation times out. -/
def vmEnvTimeout : VmEnv :=
  { vcrBinary := .ok "vcr", tmpPath := "/proj/tmp1.vcr",
    checkRes := .error .timeoutExpired,
    lintRes := .ok { returncode := 0, stdout := "", stderr := "" } }

-- ── validate_plan.py: `parse_sections` (lines 51-64) ────────────────────────

/-- The section-name alternation of the header regex, in source order. -/
def secNames : List Chars :=
  ["intent_summary".toList, "capability_check".toList, "render_plan".toList,
   "required_assets".toList, "cli_commands".toList,
   "expected_outputs".toList, "validation_steps".toList]

/-- Case-insensitive match of a (lowercase) section name as a prefix;
returns the rest on success (`re.IGNORECASE`). -/
def nameAt : Chars → Chars → Option Chars
  | [], rest => some rest
  | _ :: _, [] => none
  | a :: nm, c :: cs => if c.toLower = a then nameAt nm cs else none

/-- Try the name alternation in order. -/
def tryNames : List Chars → Chars → Option (Chars × Chars)
  | [], _ => none
  | n :: ns, s =>
    match nameAt n s with
    | some r => some (n, r)
    | none => tryNames ns s

/-- The numbered-heading tail `\s*\d+\.\s*` after the `#` run. -/
def numPre (s : Chars) : Option Chars :=
  let t := s.dropWhile isPySpace
  let ds := t.takeWhile Char.isDigit
  if ds.isEmpty then none
  else
    match t.drop ds.length with
    | '.' :: t3 => some (t3.dropWhile isPySpace)
    | _ => none

/-- Index of the last newline in a character list. -/
def lastNl : Chars → Option Nat
  | [] => none
  | c :: cs =>
    match lastNl cs with
    | some k => some (k + 1)
    | none => if c = '\n' then some 0 else none

/-- `\s*\n` with backtracking: the greedy whitespace run gives back
characters until the final `\n`; the match consumes through the LAST
newline of the leading whitespace run (fails when there is none). -/
def endWs (s : Chars) : Option Chars :=
  match lastNl (s.takeWhile isPySpace) with
  | none => none
  | some k => some (s.drop (k + 1))

/-- `:?\s*\n` (greedy optional colon, with backtracking). -/
def colonTail (s : Chars) : Option Chars :=
  match s with
  | ':' :: t => (endWs t) <|> (endWs s)
  | _ => endWs s

/-- `(?:\*\*)?:?\s*\n` (greedy optional double star, with
backtracking). -/
def starsTail (s : Chars) : Option Chars :=
  match s with
  | '*' :: '*' :: t => (colonTail t) <|> (colonTail s)
  | _ => colonTail s

/-- The header pattern after its `(?:^|\n)` anchor:
`\s*(?:#{1,4}\s*\d+\.\s*|(?:\*\*))?(name)(?:\*\*)?:?\s*\n`.
All branch points are deterministic except the trailing optionals, which
are handled with explicit backtracking above; a failed `#`/`**` prefix
cannot be rescued by the empty-prefix alternative because no section name
starts with `#` or `*`. -/
def matchHeaderCore (s0 : Chars) : Option (Chars × Chars) :=
  let s := s0.dropWhile isPySpace
  let afterPre : Option Chars :=
    match s with
    | '#' :: _ =>
      let hs := s.takeWhile (fun c => c = '#')
      if hs.length ≤ 4 then numPre (s.drop hs.length) else none
    | '*' :: '*' :: t => some t
    | _ => some s
  match afterPre with
  | none => none
  | some s1 =>
    match tryNames secNames s1 with
    | none => none
    | some (n, s2) =>
      match starsTail s2 with
      | none => none
      | some r => some (n, r)

/-- A header match may start only at position 0 (`^`, no `re.MULTILINE`)
or at a newline character.  At position 0 the `^` branch subsumes the
newline branch because the following `\s*` also consumes newlines. -/
def matchHeaderAt (atStart : Bool) (s : Chars) : Option (Chars × Chars) :=
  if atStart then matchHeaderCore s
  else
    match s with
    | '\n' :: t => matchHeaderCore t
    | _ => none

/-- Scan left to right for the next header match (`re.finditer` step):
returns (gap before the match start, section name, rest after the match
end). -/
def findNext (atStart : Bool) (s : Chars) : Option (Chars × Chars × Chars)
  :=
  match matchHeaderAt atStart s with
  | some (n, r) => some ([], n, r)
  | none =>
    match s with
    | [] => none
    | c :: cs =>
      match findNext false cs with
      | some (g, n, r) => some (c :: g, n, r)
      | none => none

/-- The finditer loop: each section's raw content runs from its match end
to the next match start (or the end of the text).  Every match consumes at
least its final newline, so the rest shrinks at every step and the fuel
`rest.length + 1` used below is never exhausted. -/
def sectionsAux : Nat → Chars → Chars → List (Chars × Chars)
  | 0, nm, r => [(nm, r)]
  | fuel + 1, nm, r =>
    match findNext false r with
    | none => [(nm, r)]
    | some (g, nm2, r2) => (nm, g) :: sectionsAux fuel nm2 r2

/-- All (name, raw content) pairs of the text, in match order. -/
def sectionsList (s : Chars) : List (Chars × Chars) :=
  match findNext true s with
  | none => []
  | some (_, nm, r) => sectionsAux (r.length + 1) nm r

/-- Python dict assignment `d[k] = v`: replace in place or append. -/
def dictInsert (d : List (Chars × Chars)) (k v : Chars) :
    List (Chars × Chars) :=
  if d.any (fun p => p.1 = k) then
    d.map (fun p => if p.1 = k then (k, v) else p)
  else d ++ [(k, v)]

/-- Python dict lookup. -/
def dictGet (d : List (Chars × Chars)) (k : Chars) : Option Chars :=
  (d.find? (fun p => p.1 = k)).map (fun p => p.2)

/-- Python `d.get(k, default)`. -/
def dictGetD (d : List (Chars × Chars)) (k default : Chars) : Chars :=
  (dictGet d k).getD default

/-- `parse_sections`: build the dict of stripped section contents.  The
matcher already returns the canonical lowercase name
(`m.group(1).lower()`). -/
def parse_sections (text : Chars) : List (Chars × Chars) :=
  (sectionsList text).foldl (fun d p => dictInsert d p.1 (pyStrip p.2)) []

-- ── validate_plan.py: `parse_render_plan_table` (lines 67-75) ───────────────

/-- `\s*\|` at the end of the row value. -/
def pipeAfterWs (u : Chars) : Option Chars :=
  match u.dropWhile isPySpace with
  | '|' :: t => some t
  | _ => none

/-- The closing `` `?\s*\| `` after the lazy value group (greedy
optional backtick with backtracking). -/
def closeMatch (u : Chars) : Option Chars :=
  match u with
  | '`' :: t => (pipeAfterWs t) <|> (pipeAfterWs u)
  | _ => pipeAfterWs u

/-- The lazy value group ``([^|`]+?)`` of the row regex: the shortest
nonempty backtick/pipe-free prefix whose continuation matches the closing
pattern. -/
def valueLazy : Chars → Option (Chars × Chars)
  | [] => none
  | c :: cs =>
    if c = '|' ∨ c = '`' then none
    else
      match closeMatch cs with
      | some r => some ([c], r)
      | none =>
        match valueLazy cs with
        | some (v, r) => some (c :: v, r)
        | none => none

/-- `re.match` of a table row:
``\|\s*(\w[\w_]*)\s*\|\s*`?([^|`]+?)`?\s*\|``; returns the raw
(field, value) capture groups. -/
def rowMatch (line : Chars) : Option (Chars × Chars) :=
  match line with
  | '|' :: t =>
    let t1 := t.dropWhile isPySpace
    let f := t1.takeWhile isPyWord
    if f.isEmpty then none
    else
      match (t1.drop f.length).dropWhile isPySpace with
      | '|' :: t3 =>
        let t4 := t3.dropWhile isPySpace
        match t4 with
        | '`' :: t5 => (valueLazy t5).map (fun p => (f, p.1))
        | _ => (valueLazy t4).map (fun p => (f, p.1))
      | _ => none
  | _ => none

/-- `parse_render_plan_table`: fold the row matches into a dict of
stripped lowered fields and values. -/
def parse_render_plan_table (text : Chars) : List (Chars × Chars) :=
  (splitNl text).foldl
    (fun d line =>
      match rowMatch line with
      | some (f, v) => dictInsert d (pyLower (pyStrip f)) (pyLower (pyStrip v))
      | none => d) []

-- ── validate_plan.py: `extract_cli_commands` (lines 78-96) ──────────────────

/-- `^(vcr|ffprobe|test)\s` on an already-stripped line. -/
def startsWordWs (w : Chars) (sp : Chars) : Bool :=
  isPre w sp &&
    (match sp.drop w.length with
     | c :: _ => isPySpace c
     | [] => false)

/-- The raw-line fallback test of `extract_cli_commands`. -/
def rawCmdStart (sp : Chars) : Bool :=
  !sp.isEmpty &&
    (startsWordWs "vcr".toList sp || startsWordWs "ffprobe".toList sp ||
     startsWordWs "test".toList sp)

/-- `extract_cli_commands`: fenced-block lines first, raw command lines as
fallback. -/
def extract_cli_commands (text : Chars) : List Chars :=
  let step := fun (st : Bool × List Chars) (line : Chars) =>
    if isPre "```".toList (pyStrip line) then (!st.1, st.2)
    else if st.1 then
      let sp := pyStrip line
      if sp ≠ [] ∧ sp.head? ≠ some '#' then (st.1, st.2 ++ [sp])
      else st
    else st
  let cmds := ((splitNl text).foldl step (false, [])).2
  if cmds ≠ [] then cmds
  else
    (splitNl text).foldl
      (fun acc line =>
        let sp := pyStrip line
        if rawCmdStart sp then acc ++ [sp] else acc) []

/-- `re.search(r"-o\s+(\S+)", cmd)`: the token after the first `-o`
followed by whitespace. -/
def oSearch : Chars → Option Chars
  | [] => none
  | c :: cs =>
    if isPre "-o".toList (c :: cs) then
      let t := (c :: cs).drop 2
      let w := t.takeWhile isPySpace
      if w ≠ [] then
        let v := (t.drop w.length).takeWhile (fun ch => !(isPySpace ch))
        if v ≠ [] then some v else oSearch cs
      else oSearch cs
    else oSearch cs

-- ── validate_plan.py: `validate_schema` (lines 99-182) ──────────────────────

/-- `REQUIRED_SECTIONS` in source order. -/
def requiredSections : List Chars :=
  ["intent_summary".toList, "capability_check".toList, "render_plan".toList,
   "required_assets".toList, "cli_commands".toList,
   "expected_outputs".toList, "validation_steps".toList]

/-- `RENDER_PLAN_FIELDS` (dict order is the source literal order). -/
def renderPlanFields : List (Chars × List Chars) :=
  [("stage_type".toList,
     ["ascii".toList, "raster".toList, "hybrid".toList]),
   ("backend".toList, ["software".toList, "gpu".toList, "auto".toList]),
   ("alpha".toList, ["true".toList, "false".toList]),
   ("prores_profile".toList, ["4444".toList, "422hq".toList]),
   ("determinism_mode".toList, ["on".toList, "off".toList])]

/-- `RENDER_PLAN_REQUIRED` in the source-literal order (Python set
iteration order is unspecified; only the multiset of missing-field errors
is observable across runs). -/
def renderPlanRequired : List Chars :=
  ["stage_type".toList, "resolution".toList, "fps".toList,
   "duration".toList, "backend".toList, "alpha".toList,
   "prores_profile".toList, "source_mode".toList,
   "determinism_mode".toList]

/-- Exponent part of a Python float literal: `[+-]?digits`. -/
def expOk : Chars → Bool
  | [] => false
  | c :: t =>
    let t2 := if c = '+' ∨ c = '-' then t else c :: t
    !t2.isEmpty && t2.all Char.isDigit

/-- Unsigned decimal float body: `digits [. digits] [exponent]` with at
least one mantissa digit. -/
def decimalOk (t : Chars) : Bool :=
  let d1 := t.takeWhile Char.isDigit
  let r1 := t.drop d1.length
  match r1 with
  | '.' :: q =>
    let d2 := q.takeWhile Char.isDigit
    let r2 := q.drop d2.length
    (!d1.isEmpty || !d2.isEmpty) &&
      (match r2 with
       | [] => true
       | e :: q2 => (e = 'e' ∨ e = 'E') && expOk q2)
  | [] => !d1.isEmpty
  | e :: q2 => !d1.isEmpty && (e = 'e' ∨ e = 'E') && expOk q2

/-- `float(s)` succeeds (ASCII model; numeric-literal underscores are not
modelled). -/
def pyFloatOk (s : Chars) : Bool :=
  let t := pyStrip s
  let t2 := match t with
    | '+' :: r => r
    | '-' :: r => r
    | _ => t
  let tl := pyLower t2
  tl = "inf".toList || tl = "infinity".toList || tl = "nan".toList ||
    decimalOk t2

/-- `re.match(r"\d+x\d+", v)` (unanchored at the end). -/
def resFormatOk (v : Chars) : Bool :=
  let d1 := v.takeWhile Char.isDigit
  !d1.isEmpty &&
    (match v.drop d1.length with
     | 'x' :: r => !(r.takeWhile Char.isDigit).isEmpty
     | _ => false)

/-- The `Missing section:` errors, in `REQUIRED_SECTIONS` order. -/
def missingSectionErrs (secs : List (Chars × Chars)) : List Chars :=
  (requiredSections.filter (fun s => (dictGet secs s).isNone)).map
    (fun s => "Missing section: ".toList ++ s)

/-- The unsupported-request shortcut condition:
`"unsupported" in cap.lower() and "null" in text.lower()`. -/
def unsupportedShortcut (text : Chars) (secs : List (Chars × Chars)) :
    Bool :=
  containsSub "unsupported".toList
    (pyLower (dictGetD secs "capability_check".toList [])) &&
  containsSub "null".toList (pyLower text)

/-- Python `repr` of the legal-value set, in dict-literal order (the real
set repr order is unspecified across processes). -/
def showValueSet (valid : List Chars) : Chars :=
  have join : List Chars → Chars := fun l =>
    (l.foldl (fun acc x =>
      if acc.isEmpty then x else acc ++ ", ".toList ++ x) [])
  "\x7b".toList ++ join (valid.map (fun v => '\x27' :: (v ++ ['\x27'])))
    ++ "\x7d".toList

/-- `validate_schema` from validate_plan.py: returns the accumulated list
of error strings. -/
def validate_schema (text : Chars) : List Chars :=
  let secs := parse_sections text
  let errs0 := missingSectionErrs secs
  if secs.isEmpty then
    errs0 ++
      ["No sections found. Response may not follow the required format.".toList]
  else if unsupportedShortcut text secs then errs0
  else
    let intent := dictGetD secs "intent_summary".toList []
    let errs1 := errs0 ++
      (if intent ≠ [] ∧ countCh '\n' intent > 1 then
        ["intent_summary should be a single sentence".toList]
       else [])
    let errs2 := errs1 ++
      (match dictGet secs "render_plan".toList with
       | none => []
       | some plan =>
         let fields := parse_render_plan_table plan
         if fields.isEmpty then []
         else
           ((renderPlanRequired.filter
               (fun f => (dictGet fields f).isNone)).map
             (fun f => "render_plan missing field: ".toList ++ f))
           ++ (renderPlanFields.filterMap (fun fv =>
                match dictGet fields fv.1 with
                | some v =>
                  if v ∉ fv.2 then
                    some ("render_plan.".toList ++ fv.1 ++ " = \x27".toList
                      ++ v ++ "\x27 not in ".toList ++ showValueSet fv.2)
                  else none
                | none => none))
           ++ (match dictGet fields "resolution".toList with
               | some v =>
                 if !resFormatOk v then
                   ["render_plan.resolution = \x27".toList ++ v
                     ++ "\x27 should be WIDTHxHEIGHT".toList]
                 else []
               | none => [])
           ++ (match dictGet fields "fps".toList with
               | some v =>
                 if !pyFloatOk v then
                   ["render_plan.fps = \x27".toList ++ v
                     ++ "\x27 is not numeric".toList]
                 else []
               | none => []))
    let errs3 := errs2 ++
      (match dictGet secs "cli_commands".toList with
       | none => []
       | some c =>
         let cmds := extract_cli_commands c
         let hasCheck := cmds.any (fun cm => containsSub "vcr check".toList cm)
         let hasBuild := cmds.any (fun cm => containsSub "vcr build".toList cm)
         (if hasBuild ∧ ¬ hasCheck = true then
            ["cli_commands: vcr build without preceding vcr check".toList]
          else [])
         ++ (if hasCheck ∧ hasBuild then
              (if cmds.findIdx (fun cm => containsSub "vcr check".toList cm) >
                  cmds.findIdx (fun cm => containsSub "vcr build".toList cm)
               then ["cli_commands: vcr check must come before vcr build".toList]
               else [])
             else [])
         ++ (cmds.filterMap (fun cm =>
              if containsSub "vcr build".toList cm ∧
                  containsSub "-o".toList cm then
                match oSearch cm with
                | some outv =>
                  if !(List.isSuffixOf ".mov".toList outv) then
                    some ("cli_commands: output \x27".toList ++ outv
                      ++ "\x27 should be .mov for ProRes".toList)
                  else none
                | none => none
              else none)))
    errs3

-- ── concrete plan-document families for the validator claims ────────────────

/-- One markdown table row of a render_plan section. -/
def planRow (k v : Chars) : Chars :=
  "| ".toList ++ k ++ " | ".toList ++ v ++ " |\n".toList

/-- The nine required rows, parameterised on the five enum fields. -/
def stdRows (s b a p d : Chars) : List (Chars × Chars) :=
  [("stage_type".toList, s), ("resolution".toList, "640x480".toList),
   ("fps".toList, "24".toList), ("duration".toList, "3".toList),
   ("backend".toList, b), ("alpha".toList, a),
   ("prores_profile".toList, p), ("source_mode".toList, "generated".toList),
   ("determinism_mode".toList, d)]

/-- A seven-section plan response whose render_plan table holds the given
rows: bare-name headers, prose bodies, and a fenced cli block with a
check-then-build pair writing renders/scene.mov. -/
def mkPlanDoc (rows : List (Chars × Chars)) : Chars :=
  "intent_summary\nRender request summary.\ncapability_check\nSupported.\nrender_plan\n".toList
  ++ (rows.map (fun r => planRow r.1 r.2)).flatten
  ++ "required_assets\nA manifest file.\ncli_commands\n```\nvcr check scene.vcr\nvcr build scene.vcr -o renders/scene.mov\n```\nexpected_outputs\nrenders/scene.mov\nvalidation_steps\nCheck exit code.\n".toList

/-- A fully populated plan document with the given enum-field values. -/
def mkValidDoc (s b a p d : Chars) : Chars := mkPlanDoc (stdRows s b a p d)

/-- The valid document with the row for field `f` removed. -/
def mkMissingDoc (f : Chars) : Chars :=
  mkPlanDoc ((stdRows "ascii".toList "software".toList "false".toList
    "422hq".toList "on".toList).filter (fun r => r.1 ≠ f))

/-- Rows violating two independent checks at once: the resolution row is
missing and the fps value is non-numeric. -/
def c5multiRows : List (Chars × Chars) :=
  ((stdRows "ascii".toList "software".toList "false".toList "422hq".toList
      "on".toList).filter (fun r => r.1 ≠ "resolution".toList)).map
    (fun r => if r.1 = "fps".toList then (r.1, "abc".toList) else r)

/-- Document with two simultaneous violations (accumulation check). -/
def c5multiDoc : Chars := mkPlanDoc c5multiRows

/-- Enum-valid document whose derived fields are mutually inconsistent:
alpha=true with prores_profile=422hq, backend=software with
determinism_mode=off. -/
def c3doc : Chars :=
  mkValidDoc "ascii".toList "software".toList "true".toList "422hq".toList
    "off".toList

/-- Document whose render_plan section is prose with no table rows. -/
def c4doc : Chars :=
  "intent_summary\nRender request summary.\ncapability_check\nSupported.\nrender_plan\nThe plan is inline prose without a table.\nrequired_assets\nA manifest file.\ncli_commands\n```\nvcr check scene.vcr\nvcr build scene.vcr -o renders/scene.mov\n```\nexpected_outputs\nrenders/scene.mov\nvalidation_steps\nCheck exit code.\n".toList

/-- Document whose render_plan table has exactly one recognizable row. -/
def c4witDoc : Chars :=
  mkPlanDoc [("stage_type".toList, "ascii".toList)]

/-- Document taking the unsupported-request shortcut. -/
def c10doc : Chars := "capability_check\nunsupported: null\n".toList

/-- The legal stage_type values. -/
def stageVals : List Chars :=
  ["ascii".toList, "raster".toList, "hybrid".toList]

/-- The legal backend values. -/
def backendVals : List Chars :=
  ["software".toList, "gpu".toList, "auto".toList]

/-- The legal alpha values. -/
def alphaVals : List Chars := ["true".toList, "false".toList]

/-- The legal prores_profile values. -/
def proresVals : List Chars := ["4444".toList, "422hq".toList]

/-- The legal determinism_mode values. -/
def detVals : List Chars := ["on".toList, "off".toList]

end VCR

namespace VCR

-- ── general lemmas about the string primitives ──────────────────────────────

theorem isPre_append_self (p x : Chars) : isPre p (p ++ x) = true := by
  induction p with
  | nil => rfl
  | cons a t ih => simp [isPre, ih]

theorem isPre_exists_append {p s : Chars} (h : isPre p s = true) :
    ∃ r, s = p ++ r := by
  induction p generalizing s with
  | nil => exact ⟨s, rfl⟩
  | cons a t ih =>
    match s with
    | [] => simp [isPre] at h
    | b :: u =>
      simp only [isPre, Bool.and_eq_true, decide_eq_true_eq] at h
      obtain ⟨rfl, h2⟩ := h
      obtain ⟨r, rfl⟩ := ih h2
      exact ⟨r, rfl⟩

theorem dropWhile_append_all {p : Char → Bool} {a : Chars} (b : Chars)
    (h : ∀ c ∈ a, p c = true) :
    (a ++ b).dropWhile p = b.dropWhile p := by
  induction a with
  | nil => rfl
  | cons x t ih =>
    have hx : p x = true := h x (by simp)
    simp only [List.cons_append, List.dropWhile_cons, hx, if_true]
    exact ih (fun c hc => h c (by simp [hc]))

theorem dropWhile_append_stop {p : Char → Bool} {a : Chars} (b : Chars)
    (c : Char) (t : Chars) (ha : a = c :: t) (hc : p c = false) :
    (a ++ b).dropWhile p = a ++ b := by
  subst ha; simp [List.dropWhile_cons, hc]

theorem takeToSub_of_not_contains {pat : Chars} {s : Chars}
    (h : containsSub pat s = false) : takeToSub pat s = s := by
  induction s with
  | nil => rfl
  | cons c t ih =>
    simp only [containsSub, Bool.or_eq_false_iff] at h
    simp [takeToSub, h.1, ih h.2]

theorem suffixFromSub_min {pat : Chars} {s : Chars}
    (h : containsSub pat s = true) :
    ∃ i, isPre pat (s.drop i) = true ∧
      (∀ j < i, isPre pat (s.drop j) = false) ∧
      suffixFromSub pat s = s.drop i := by
  induction s with
  | nil =>
    refine ⟨0, ?_, ?_, ?_⟩
    · simpa [containsSub] using h
    · omega
    · simp only [containsSub] at h
      simp [suffixFromSub, h]
  | cons c t ih =>
    by_cases hp : isPre pat (c :: t) = true
    · exact ⟨0, hp, by omega, by simp [suffixFromSub, hp]⟩
    · have hp' : isPre pat (c :: t) = false := by
        cases hh : isPre pat (c :: t) <;> simp_all
      have ht : containsSub pat t = true := by
        simp only [containsSub, hp', Bool.false_or] at h
        exact h
      obtain ⟨i, h1, h2, h3⟩ := ih ht
      refine ⟨i + 1, by simpa using h1, ?_, ?_⟩
      · intro j hj
        match j with
        | 0 => simpa using hp'
        | Nat.succ k =>
          have : k < i := by omega
          simpa using h2 k this
      · simp [suffixFromSub, hp', h3]

-- ── C1: extraction lemmas ───────────────────────────────────────────────────

theorem isPre_bt_false {c : Char} (t : Chars) (h : ¬ c = '`') :
    isPre "```".toList (c :: t) = false := by
  have h' : ¬ ('`' = c) := fun hh => h hh.symm
  rw [show "```".toList = ['`', '`', '`'] from rfl]
  simp [isPre, h']

theorem takeToSub_cons_ne {c : Char} (t : Chars) (h : ¬ c = '`') :
    takeToSub "```".toList (c :: t) = c :: takeToSub "```".toList t := by
  simp only [takeToSub, isPre_bt_false t h, Bool.false_eq_true, if_false]

theorem takeToSub_vp (r : Chars) :
    takeToSub "```".toList ("version:".toList ++ r) =
      "version:".toList ++ takeToSub "```".toList r := by
  rw [show "version:".toList = ['v', 'e', 'r', 's', 'i', 'o', 'n', ':'] from rfl]
  simp only [List.cons_append, List.nil_append]
  rw [takeToSub_cons_ne _ (by decide), takeToSub_cons_ne _ (by decide),
    takeToSub_cons_ne _ (by decide), takeToSub_cons_ne _ (by decide),
    takeToSub_cons_ne _ (by decide), takeToSub_cons_ne _ (by decide),
    takeToSub_cons_ne _ (by decide), takeToSub_cons_ne _ (by decide)]

theorem dropWhile_append_rest {p : Char → Bool} (a b : Chars)
    (h : a.dropWhile p ≠ []) :
    (a ++ b).dropWhile p = a.dropWhile p ++ b := by
  induction a with
  | nil => simp at h
  | cons x t ih =>
    by_cases hx : p x = true
    · simp only [List.dropWhile_cons, hx, if_true] at h ⊢
      simp only [List.cons_append, List.dropWhile_cons, hx, if_true]
      exact ih h
    · have hx' : p x = false := by cases hh : p x <;> simp_all
      simp [List.dropWhile_cons, hx']

theorem pyStrip_vp (r : Chars) :
    isPre "version:".toList (pyStrip ("version:".toList ++ r)) = true := by
  have hlead : ("version:".toList ++ r).dropWhile isPySpace =
      "version:".toList ++ r :=
    dropWhile_append_stop r 'v' "ersion:".toList (by decide) (by decide)
  unfold pyStrip stripLead stripTrail
  rw [hlead, List.reverse_append]
  by_cases hr : r.reverse.dropWhile isPySpace = []
  · have hall : ∀ c ∈ r.reverse, isPySpace c = true := by
      intro c hc
      exact List.dropWhile_eq_nil_iff.mp hr c hc
    rw [dropWhile_append_all _ hall]
    rw [show ("version:".toList.reverse).dropWhile isPySpace =
      "version:".toList.reverse from by decide]
    rw [List.reverse_reverse]
    simpa using isPre_append_self "version:".toList []
  · rw [dropWhile_append_rest _ _ hr, List.reverse_append, List.reverse_reverse]
    exact isPre_append_self _ _

/-- C1 (amended): whenever the completion text contains the `version:`
marker, `_extract_yaml` extracts starting at the FIRST occurrence of the
marker anywhere in the text — even when that occurrence lies inside a
fenced code block — truncating before the next fence; the result always
begins with `version:`.  (The original claim, that a bare marker outside a
fence wins over a fenced block, is refuted by `claim_C1_counterexample`.) -/
theorem claim_C1_theorem (content : Chars)
    (h : containsSub "version:".toList content = true) :
    ∃ i, isPre "version:".toList (content.drop i) = true ∧
      (∀ j < i, isPre "version:".toList (content.drop j) = false) ∧
      extract_yaml content =
        pyStrip (takeToSub "```".toList (content.drop i)) ∧
      isPre "version:".toList (extract_yaml content) = true := by
  obtain ⟨i, h1, h2, h3⟩ := suffixFromSub_min h
  have h4 : extract_yaml content =
      pyStrip (takeToSub "```".toList (content.drop i)) := by
    unfold extract_yaml
    rw [if_pos h, h3]
    by_cases hf : containsSub "```".toList (content.drop i) = true
    · simp only [hf, if_true]
    · have hf' : containsSub "```".toList (content.drop i) = false := by
        cases hh : containsSub "```".toList (content.drop i) <;> simp_all
      simp only [hf', Bool.false_eq_true, if_false,
        takeToSub_of_not_contains hf']
  obtain ⟨r, hr⟩ := isPre_exists_append h1
  refine ⟨i, h1, h2, h4, ?_⟩
  rw [h4, hr, takeToSub_vp]
  exact pyStrip_vp _

/-- C1 counterexample: on the spec's own fixture — which contains both a
fenced code block and a bare `version:` marker after it — `_extract_yaml`
returns `"version: 2"` (the text from the first `version:` occurrence,
inside the fence), not an artifact starting at the bare `version: 1`. -/
theorem claim_C1_counterexample :
    containsSub "version:".toList c1_fixture = true ∧
    containsSub "```".toList c1_fixture = true ∧
    extract_yaml c1_fixture = "version: 2".toList ∧
    isPre "version: 1".toList (extract_yaml c1_fixture) = false := by decide

/-- C1 witness: the amended theorem applied to the concrete fixture. -/
theorem claim_C1_witness :
    containsSub "version:".toList c1_fixture = true ∧
    (∃ i, isPre "version:".toList (c1_fixture.drop i) = true ∧
      (∀ j < i, isPre "version:".toList (c1_fixture.drop j) = false) ∧
      extract_yaml c1_fixture =
        pyStrip (takeToSub "```".toList (c1_fixture.drop i)) ∧
      isPre "version:".toList (extract_yaml c1_fixture) = true) :=
  ⟨by decide, claim_C1_theorem c1_fixture (by decide)⟩

-- ── C6 / C9: slug and derived-field lemmas ──────────────────────────────────

theorem collapse_cons_good {c : Char} (t : Chars) (hc : isSlugGood c = true) :
    collapseRunsSpec (c :: t) = c :: collapseRunsSpec t := by
  simp [collapseRunsSpec, hc]

theorem collapse_cons_bad {c : Char} (t : Chars) (hc : isSlugGood c = false) :
    collapseRunsSpec (c :: t) =
      (if (collapseRunsSpec t).head? = some '_' then collapseRunsSpec t
       else '_' :: collapseRunsSpec t) := by
  simp [collapseRunsSpec, hc]

theorem subBadRunsAux_eq_collapse (s : Chars) :
    subBadRunsAux false s = collapseRunsSpec s ∧
    subBadRunsAux true s =
      (if (collapseRunsSpec s).head? = some '_' then (collapseRunsSpec s).tail
       else collapseRunsSpec s) := by
  induction s with
  | nil => exact ⟨rfl, rfl⟩
  | cons c t ih =>
    obtain ⟨ih1, ih2⟩ := ih
    by_cases hc : isSlugGood c = true
    · rw [collapse_cons_good t hc]
      have hcne : ¬ ((c :: collapseRunsSpec t).head? = some '_') := by
        simp only [List.head?_cons, Option.some.injEq]
        intro hh
        rw [hh] at hc
        simp [isSlugGood] at hc
      constructor
      · simp only [subBadRunsAux, hc, if_true, ih1]
      · simp only [subBadRunsAux, hc, if_true, ih1, if_neg hcne]
    · have hc' : isSlugGood c = false := by
        cases hh : isSlugGood c <;> simp_all
      rw [collapse_cons_bad t hc']
      by_cases hh : (collapseRunsSpec t).head? = some '_'
      · obtain ⟨l, hl⟩ : ∃ l, collapseRunsSpec t = '_' :: l := by
          cases hcl : collapseRunsSpec t with
          | nil => rw [hcl] at hh; simp at hh
          | cons a l =>
            rw [hcl] at hh
            simp only [List.head?_cons, Option.some.injEq] at hh
            exact ⟨l, by rw [hh]⟩
        rw [if_pos hh]
        constructor
        · simp only [subBadRunsAux, hc', Bool.false_eq_true, if_false,
            Bool.true_eq_false, if_true, ih2, if_pos hh, hl]
          simp
        · simp only [subBadRunsAux, hc', Bool.false_eq_true, if_false,
            if_true, ih2, if_pos hh, hl]
    -- bad character, previous collapse does not start with underscore
      · rw [if_neg hh]
        constructor
        · simp only [subBadRunsAux, hc', Bool.false_eq_true, if_false,
            Bool.true_eq_false, if_true, ih2, if_neg hh]
        · simp only [subBadRunsAux, hc', Bool.false_eq_true, if_false,
            if_true, ih2, if_neg hh]
          simp

theorem subBadRuns_eq_collapse (s : Chars) :
    subBadRuns s = collapseRunsSpec s :=
  (subBadRunsAux_eq_collapse s).1

theorem slugOf_eq_spec (p : Chars) : slugOf p = slug_spec p := by
  unfold slugOf slug_spec
  rw [subBadRuns_eq_collapse]

theorem vcr_render_plan_plan_shape (env : RpEnv) (prompt : String)
    (resolution : Option String) (fps : Option Int) (duration : Option Rat)
    (alpha : Option Bool) (backend : Option String)
    (manifest_path : Option String) (p : PlanDoc) (evs : List Ev)
    (h : vcr_render_plan env prompt resolution fps duration alpha backend
      manifest_path = .ok (.plan p, evs)) :
    (p.render_plan.prores_profile =
      if p.render_plan.alpha then "4444" else "422hq") ∧
    (p.render_plan.determinism_mode =
      if p.render_plan.backend = "software" then "on" else "off") ∧
    p.expected_outputs =
      ["renders/" ++ String.mk (slugOf prompt.toList) ++ ".mov"] := by
  simp only [vcr_render_plan] at h
  repeat' split at h
  all_goals try (simp only [Except.ok.injEq, Prod.mk.injEq,
    RpOut.plan.injEq] at h)
  all_goals first
    | (obtain ⟨hp, hev⟩ := h
       first
         | (subst hp
            refine ⟨?_, ?_, ?_⟩ <;> first | rfl | simp [*])
         | simp at hp)
    | simp at h

/-- C6: for every plan produced by `vcr_render_plan`, the derived fields
are pure functions of their inputs — `prores_profile` is `4444` when alpha
is true and `422hq` otherwise, and `determinism_mode` is `on` exactly when
the backend is `software`; with all-default arguments (alpha false,
backend software) the plan carries `prores_profile = 422hq` and
`determinism_mode = on`. -/
theorem claim_C6_theorem (env : RpEnv) (prompt : String)
    (resolution : Option String) (fps : Option Int) (duration : Option Rat)
    (alpha : Option Bool) (backend : Option String)
    (manifest_path : Option String) (p : PlanDoc) (evs : List Ev)
    (h : vcr_render_plan env prompt resolution fps duration alpha backend
      manifest_path = .ok (.plan p, evs)) :
    (p.render_plan.prores_profile =
      if p.render_plan.alpha then "4444" else "422hq") ∧
    (p.render_plan.determinism_mode =
      if p.render_plan.backend = "software" then "on" else "off") ∧
    (vcr_render_plan rpEnv0 "a red circle growing" none none none
        none none none = .ok (.plan c6_default_plan, []) ∧
      c6_default_plan.render_plan.alpha = false ∧
      c6_default_plan.render_plan.backend = "software" ∧
      c6_default_plan.render_plan.prores_profile = "422hq" ∧
      c6_default_plan.render_plan.determinism_mode = "on") := by
  obtain ⟨h1, h2, _⟩ := vcr_render_plan_plan_shape env prompt resolution fps
    duration alpha backend manifest_path p evs h
  exact ⟨h1, h2, by decide, rfl, rfl, rfl, rfl⟩

/-- C6 witness: the theorem applied at the all-defaults concrete call. -/
theorem claim_C6_witness :
    vcr_render_plan rpEnv0 "a red circle growing" none none none none none
      none = .ok (.plan c6_default_plan, []) ∧
    (c6_default_plan.render_plan.prores_profile =
      if c6_default_plan.render_plan.alpha then "4444" else "422hq") ∧
    (c6_default_plan.render_plan.determinism_mode =
      if c6_default_plan.render_plan.backend = "software" then "on"
      else "off") :=
  ⟨by decide,
    (claim_C6_theorem rpEnv0 "a red circle growing" none none none none none
      none c6_default_plan [] (by decide)).1,
    (claim_C6_theorem rpEnv0 "a red circle growing" none none none none none
      none c6_default_plan [] (by decide)).2.1⟩

/-- C9 (amended): the output path in every produced plan is
`renders/<slug>.mov` where the slug is computed by lowercasing, STRIPPING
LEADING AND TRAILING WHITESPACE (the step the original claim omitted),
collapsing runs outside `[a-z0-9]` to one underscore, truncating to 40
characters, and trimming underscores; for the prompt
`a red circle growing` this yields `renders/a_red_circle_growing.mov`. -/
theorem claim_C9_theorem (env : RpEnv) (prompt : String)
    (resolution : Option String) (fps : Option Int) (duration : Option Rat)
    (alpha : Option Bool) (backend : Option String)
    (manifest_path : Option String) (p : PlanDoc) (evs : List Ev)
    (h : vcr_render_plan env prompt resolution fps duration alpha backend
      manifest_path = .ok (.plan p, evs)) :
    p.expected_outputs =
      ["renders/" ++ String.mk (slug_spec prompt.toList) ++ ".mov"] ∧
    (vcr_render_plan rpEnv0 "a red circle growing" none none none
        none none none = .ok (.plan c6_default_plan, []) ∧
      c6_default_plan.expected_outputs =
        ["renders/a_red_circle_growing.mov"]) := by
  obtain ⟨_, _, h3⟩ := vcr_render_plan_plan_shape env prompt resolution fps
    duration alpha backend manifest_path p evs h
  rw [slugOf_eq_spec] at h3
  exact ⟨h3, by decide, rfl⟩

/-- C9 counterexample: for the prompt consisting of one leading space and
41 `a`s, the code's output path (whitespace is stripped before the
40-character truncation) differs from the path obtained by the claim's
recipe, which collapses the leading space to an underscore first and so
truncates one `a` earlier. -/
theorem claim_C9_counterexample :
    (∃ p evs, vcr_render_plan rpEnv0 c9_prompt none none none none none
        none = .ok (.plan p, evs) ∧
      p.expected_outputs =
        ["renders/" ++ String.mk (slugOf c9_prompt.toList) ++ ".mov"] ∧
      p.expected_outputs ≠
        ["renders/" ++ String.mk (slug_claim c9_prompt.toList) ++ ".mov"]) :=
  ⟨_, _, rfl, rfl, by decide⟩

/-- C9 witness: the amended theorem applied at the spec's example prompt. -/
theorem claim_C9_witness :
    c6_default_plan.expected_outputs =
      ["renders/"
        ++ String.mk (slug_spec ("a red circle growing").toList) ++ ".mov"] :=
  (claim_C9_theorem rpEnv0 "a red circle growing" none none none none none
    none c6_default_plan [] (by decide)).1

theorem noBuild_buildGuarded {evs : List Ev} (h : noBuild evs) :
    buildGuarded evs := by
  intro l1 e l2 heq hbe
  have : isBuildEv e = false := h e (by rw [heq]; simp)
  rw [this] at hbe
  exact absurd hbe (by simp)

theorem subset_left_of_build_split {A : List Ev} (B : List Ev) :
    ∀ {l1 l2 : List Ev} {e : Ev}, noBuild A → A ++ B = l1 ++ e :: l2 →
      isBuildEv e = true → A ⊆ l1 := by
  induction A with
  | nil =>
    intro l1 l2 e _ _ _
    simp
  | cons a A ih =>
    intro l1 l2 e hA heq hbe
    match l1 with
    | [] =>
      simp only [List.cons_append, List.nil_append] at heq
      injection heq with h1 h2
      subst h1
      have : isBuildEv a = false := hA a (by simp)
      rw [this] at hbe
      exact absurd hbe (by simp)
    | x :: l1x =>
      simp only [List.cons_append] at heq
      injection heq with h1 h2
      subst h1
      have hA2 : noBuild A := fun e2 he2 => hA e2 (by simp [he2])
      have hsub := ih hA2 h2 hbe
      intro y hy
      rcases List.mem_cons.mp hy with hya | hyA
      · subst hya; simp
      · exact List.mem_cons_of_mem _ (hsub hyA)

theorem buildGuarded_of_parts {A B : List Ev} (hA : noBuild A)
    (hc : ∃ c ∈ A, isCheckEv c = true) : buildGuarded (A ++ B) := by
  intro l1 e l2 heq hbe
  obtain ⟨c, hcA, hcE⟩ := hc
  exact ⟨c, subset_left_of_build_split B hA heq hbe hcA, hcE⟩

set_option maxHeartbeats 1000000 in
theorem rvp_build_char (cfg : Cfg) (env : RvpEnv) (prompt : String)
    (ids : Option (List String)) :
    (buildIssued (render_video_from_prompt cfg env prompt ids).2.1 →
      ∃ r, env.checkRes = .ok r ∧ r.returncode = 0) ∧
    buildGuarded (render_video_from_prompt cfg env prompt ids).2.1 := by
  simp only [render_video_from_prompt, resolve_model]
  repeat' split
  all_goals refine ⟨fun hB => ?_, ?_⟩
  all_goals first
    | exact ⟨_, by assumption, by omega⟩
    | (exfalso; simp [buildIssued, isBuildEv] at hB)
    | (apply noBuild_buildGuarded
       simp [noBuild, isBuildEv]
       done)
    | (refine buildGuarded_of_parts ?_ ?_ <;>
        simp [noBuild, isBuildEv, isCheckEv] <;> done)
    | (rw [List.append_assoc]
       refine buildGuarded_of_parts ?_ ?_ <;>
        simp [noBuild, isBuildEv, isCheckEv] <;> done)

set_option maxHeartbeats 1000000 in
theorem ep_build_char (cfg : Cfg) (env : EpEnv) (mp : String)
    (out : Option String) (bk : String) :
    (buildIssued (vcr_execute_plan cfg env mp out bk).2 →
      ∃ r, env.checkRes = .ok r ∧ r.returncode = 0) ∧
    buildGuarded (vcr_execute_plan cfg env mp out bk).2 := by
  simp only [vcr_execute_plan]
  repeat' split
  all_goals refine ⟨fun hB => ?_, ?_⟩
  all_goals first
    | exact ⟨_, by assumption, by omega⟩
    | (exfalso; simp [buildIssued, isBuildEv] at hB)
    | (apply noBuild_buildGuarded
       simp [noBuild, isBuildEv]
       done)
    | (refine buildGuarded_of_parts ?_ ?_ <;>
        simp [noBuild, isBuildEv, isCheckEv] <;> done)
    | (rw [List.append_assoc]
       refine buildGuarded_of_parts ?_ ?_ <;>
        simp [noBuild, isBuildEv, isCheckEv] <;> done)

/-- C2: in every run of `render_video_from_prompt` and of
`vcr_execute_plan`, if the `vcr check` subprocess exits nonzero then no
`vcr build` subprocess is ever spawned in that run; moreover, a spawned
build implies the check returned exit code 0, and every build spawn is
preceded in the effect trace by a `vcr check` invocation. -/
theorem claim_C2_theorem (cfg : Cfg) (env1 : RvpEnv) (env2 : EpEnv)
    (prompt : String) (ids : Option (List String)) (mp : String)
    (out : Option String) (bk : String) :
    (∀ r, env1.checkRes = .ok r → r.returncode ≠ 0 →
      noBuild (render_video_from_prompt cfg env1 prompt ids).2.1) ∧
    (buildIssued (render_video_from_prompt cfg env1 prompt ids).2.1 →
      ∃ r, env1.checkRes = .ok r ∧ r.returncode = 0) ∧
    buildGuarded (render_video_from_prompt cfg env1 prompt ids).2.1 ∧
    (∀ r, env2.checkRes = .ok r → r.returncode ≠ 0 →
      noBuild (vcr_execute_plan cfg env2 mp out bk).2) ∧
    (buildIssued (vcr_execute_plan cfg env2 mp out bk).2 →
      ∃ r, env2.checkRes = .ok r ∧ r.returncode = 0) ∧
    buildGuarded (vcr_execute_plan cfg env2 mp out bk).2 := by
  obtain ⟨hb1, hg1⟩ := rvp_build_char cfg env1 prompt ids
  obtain ⟨hb2, hg2⟩ := ep_build_char cfg env2 mp out bk
  refine ⟨?_, hb1, hg1, ?_, hb2, hg2⟩
  · intro r hr hrc e he
    by_contra hbe
    have hbe2 : isBuildEv e = true := by
      cases hh : isBuildEv e <;> simp_all
    obtain ⟨r2, hr2, hrc2⟩ := hb1 ⟨e, he, hbe2⟩
    rw [hr] at hr2
    injection hr2 with h3
    exact hrc (h3 ▸ hrc2)
  · intro r hr hrc e he
    by_contra hbe
    have hbe2 : isBuildEv e = true := by
      cases hh : isBuildEv e <;> simp_all
    obtain ⟨r2, hr2, hrc2⟩ := hb2 ⟨e, he, hbe2⟩
    rw [hr] at hr2
    injection hr2 with h3
    exact hrc (h3 ▸ hrc2)

/-- C2 witness: at environments whose check exits nonzero, the traces of
both tools contain no build spawn. -/
theorem claim_C2_witness :
    noBuild (render_video_from_prompt cfg0 rvpEnvCheckFail "a red circle"
      none).2.1 ∧
    noBuild (vcr_execute_plan cfg0 epEnvCheckFail "demo.vcr" none
      "software").2 :=
  ⟨(claim_C2_theorem cfg0 rvpEnvCheckFail epEnvCheckFail "a red circle" none
      "demo.vcr" none "software").1
    { returncode := 1, stdout := "", stderr := "bad" } rfl (by decide),
   (claim_C2_theorem cfg0 rvpEnvCheckFail epEnvCheckFail "a red circle" none
      "demo.vcr" none "software").2.2.2.1
    { returncode := 2, stdout := "", stderr := "schema" } rfl (by decide)⟩

set_option maxHeartbeats 1000000 in
theorem rvp_post_mem (cfg : Cfg) (env : RvpEnv) (prompt : String)
    (ids : Option (List String)) :
    Ev.httpPost (cfg.endpointUrl ++ "/chat/completions") ∈
      (render_video_from_prompt cfg env prompt ids).2.1 := by
  simp only [render_video_from_prompt, resolve_model]
  repeat' split
  all_goals simp

/-- C7: in `render_video_from_prompt`, when the context store file does
not exist the gathered context is empty, and when the store read raises
the context degrades to the single diagnostic placeholder string; in both
cases the pipeline still reaches the model-invocation stage (the
chat-completions POST occurs in the trace) — context absence or failure
never aborts the run. -/
theorem claim_C7_theorem (cfg : Cfg) (env : RvpEnv) (prompt : String)
    (ids : Option (List String)) :
    (env.brainDbExists = false → gatherContext env ids = "" ∧
      Ev.httpPost (cfg.endpointUrl ++ "/chat/completions") ∈
        (render_video_from_prompt cfg env prompt ids).2.1) ∧
    (∀ e, env.brainDbExists = true →
      env.brainRead (ctxTruthy ids) = .error e →
      gatherContext env ids = "(brain.db read failed: " ++ e ++ ")" ∧
      Ev.httpPost (cfg.endpointUrl ++ "/chat/completions") ∈
        (render_video_from_prompt cfg env prompt ids).2.1) := by
  constructor
  · intro hdb
    refine ⟨?_, rvp_post_mem cfg env prompt ids⟩
    simp [gatherContext, hdb]
  · intro e hdb herr
    refine ⟨?_, rvp_post_mem cfg env prompt ids⟩
    simp [gatherContext, hdb, herr]

/-- C7 witness: the theorem applied at a store-absent environment and at
a failing-read environment. -/
theorem claim_C7_witness :
    (gatherContext rvpEnvOk none = "" ∧
      Ev.httpPost (cfg0.endpointUrl ++ "/chat/completions") ∈
        (render_video_from_prompt cfg0 rvpEnvOk "p" none).2.1) ∧
    (gatherContext rvpEnvReadFail none =
        "(brain.db read failed: disk error)" ∧
      Ev.httpPost (cfg0.endpointUrl ++ "/chat/completions") ∈
        (render_video_from_prompt cfg0 rvpEnvReadFail "p" none).2.1) :=
  ⟨(claim_C7_theorem cfg0 rvpEnvOk "p" none).1 rfl,
   (claim_C7_theorem cfg0 rvpEnvReadFail "p" none).2 "disk error" rfl rfl⟩

/-- C8 (amended): in `validate_vcr_manifest` every failure cause except a
blocking `_run` subprocess timeout is caught and converted into a
structured result string returned to the caller; the only exception that
can escape the tool function is the `subprocess.TimeoutExpired` raised by
a timed-out `vcr check` or `vcr lint` invocation (the original claim,
that no failure propagates, is refuted by `claim_C8_counterexample`). -/
theorem claim_C8_theorem (env : VmEnv) (y : String) (rl : Bool) :
    (∃ s evs, validate_vcr_manifest env y rl = (.ok s, evs)) ∨
    ((validate_vcr_manifest env y rl).1 = .error PyExc.timeoutExpired ∧
      (env.checkRes = .error PyExc.timeoutExpired ∨
        env.lintRes = .error PyExc.timeoutExpired)) := by
  simp only [validate_vcr_manifest]
  repeat' split
  all_goals try (rename_i ex heq; cases ex)
  all_goals first
    | exact .inl ⟨_, _, rfl⟩
    | exact .inr ⟨rfl, .inl (by assumption)⟩
    | exact .inr ⟨rfl, .inr (by assumption)⟩

/-- C8 counterexample: with a `vcr check` invocation that times out, the
`TimeoutExpired` exception escapes `validate_vcr_manifest` unhandled (the
`finally` clause unlinks the temp file and re-raises). -/
theorem claim_C8_counterexample :
    (validate_vcr_manifest vmEnvTimeout "version: 1" true).1 =
      .error PyExc.timeoutExpired ∧
    (validate_vcr_manifest vmEnvTimeout "version: 1" true).2 =
      [Ev.fileWrite "/proj/tmp1.vcr" "version: 1",
       Ev.run ["vcr", "check", "/proj/tmp1.vcr"],
       Ev.fileUnlink "/proj/tmp1.vcr"] := by decide

/-- C10: whenever the parsed capability_check section contains the
substring "unsupported" (case-insensitive) and the full text contains the
substring "null" (case-insensitive), `validate_schema` takes the
unsupported-request shortcut: it skips every field-level and cli check
and returns exactly the missing-section errors. -/
theorem claim_C10_theorem (text cap : Chars)
    (hcap : dictGet (parse_sections text) "capability_check".toList = some cap)
    (hu : containsSub "unsupported".toList (pyLower cap) = true)
    (hn : containsSub "null".toList (pyLower text) = true) :
    validate_schema text = missingSectionErrs (parse_sections text) := by
  have hseNe : (parse_sections text).isEmpty = false := by
    cases hs : parse_sections text
    · rw [hs] at hcap; simp [dictGet] at hcap
    · simp
  have hsc : unsupportedShortcut text (parse_sections text) = true := by
    simp only [unsupportedShortcut, dictGetD, hcap, Option.getD_some, hu, hn,
      Bool.and_self]
  simp only [validate_schema, hseNe, hsc, Bool.false_eq_true, if_false, if_true]

/-- C10 witness: the document "capability_check\nunsupported: null\n"
satisfies both substring conditions and validates to exactly the six
missing-section errors of the other required sections. -/
theorem claim_C10_witness :
    dictGet (parse_sections c10doc) "capability_check".toList =
      some "unsupported: null".toList ∧
    validate_schema c10doc = missingSectionErrs (parse_sections c10doc) :=
  ⟨by decide, claim_C10_theorem c10doc "unsupported: null".toList (by decide)
    (by decide) (by decide)⟩

/-- C4 (amended): when the render_plan section is present, its parsed
table is nonempty, and the unsupported shortcut does not apply, every
required field absent from the parsed table is reported with a
"render_plan missing field" error.  (The original claim fails when the
table parses to no rows at all: see the counterexample.) -/
theorem claim_C4_theorem (text f : Chars)
    (hrp : (dictGet (parse_sections text) "render_plan".toList).isSome = true)
    (hne : (parse_render_plan_table
      (dictGetD (parse_sections text) "render_plan".toList [])).isEmpty = false)
    (hsc : unsupportedShortcut text (parse_sections text) = false)
    (hf : f ∈ renderPlanRequired)
    (hmiss : dictGet (parse_render_plan_table
      (dictGetD (parse_sections text) "render_plan".toList [])) f = none) :
    ("render_plan missing field: ".toList ++ f) ∈ validate_schema text := by
  obtain ⟨plan, hplan⟩ : ∃ p,
      dictGet (parse_sections text) "render_plan".toList = some p := by
    cases h : dictGet (parse_sections text) "render_plan".toList
    · rw [h] at hrp; simp at hrp
    · exact ⟨_, rfl⟩
  have hED : dictGetD (parse_sections text) "render_plan".toList [] = plan := by
    simp only [dictGetD, hplan, Option.getD_some]
  rw [hED] at hne hmiss
  have hseNe : (parse_sections text).isEmpty = false := by
    cases hs : parse_sections text
    · rw [hs] at hplan; simp [dictGet] at hplan
    · simp
  have hm : ("render_plan missing field: ".toList ++ f) ∈
      (renderPlanRequired.filter
        (fun g => (dictGet (parse_render_plan_table plan) g).isNone)).map
        (fun g => "render_plan missing field: ".toList ++ g) :=
    List.mem_map_of_mem _ (List.mem_filter.mpr ⟨hf, by simp [hmiss]⟩)
  simp only [validate_schema, hseNe, hsc, Bool.false_eq_true, if_false, hplan,
    hne]
  simp only [List.mem_append]
  tauto

set_option maxRecDepth 40000 in
set_option maxHeartbeats 1000000 in
/-- C4 counterexample: a document whose render_plan section is prose with
no recognizable table rows parses to an empty field table, and
`validate_schema` reports no missing-field errors at all (the `if fields:`
guard skips every field check), refuting the original claim. -/
theorem claim_C4_counterexample :
    (dictGet (parse_sections c4doc) "render_plan".toList).isSome = true ∧
    parse_render_plan_table
      (dictGetD (parse_sections c4doc) "render_plan".toList []) = [] ∧
    validate_schema c4doc = [] := by
  decide

set_option maxRecDepth 40000 in
set_option maxHeartbeats 1000000 in
/-- C4 witness: in the document whose table holds only a stage_type row,
the missing resolution field is reported. -/
theorem claim_C4_witness :
    ("render_plan missing field: resolution".toList ∈
      validate_schema c4witDoc) :=
  claim_C4_theorem c4witDoc "resolution".toList (by decide) (by decide)
    (by decide) (by decide) (by decide)

set_option maxRecDepth 40000 in
set_option maxHeartbeats 4000000 in
/-- C5: every document of the fully populated plan family validates with
no errors for every combination of legal enum values; removing exactly
one required row yields exactly the one missing-field error naming that
field; and a document violating two independent checks accumulates both
errors rather than stopping at the first. -/
theorem claim_C5_theorem :
    (∀ s ∈ stageVals, ∀ b ∈ backendVals, ∀ a ∈ alphaVals, ∀ p ∈ proresVals,
      ∀ d ∈ detVals, validate_schema (mkValidDoc s b a p d) = []) ∧
    (∀ f ∈ renderPlanRequired,
      validate_schema (mkMissingDoc f) =
        ["render_plan missing field: ".toList ++ f]) ∧
    validate_schema c5multiDoc =
      ["render_plan missing field: resolution".toList,
       "render_plan.fps = \x27abc\x27 is not numeric".toList] := by
  decide

set_option maxRecDepth 40000 in
set_option maxHeartbeats 4000000 in
/-- C5 witness: a concrete valid document validates to no errors, and the
document missing only the fps row yields exactly that one error. -/
theorem claim_C5_witness :
    validate_schema (mkValidDoc "hybrid".toList "auto".toList "true".toList
      "4444".toList "off".toList) = [] ∧
    validate_schema (mkMissingDoc "fps".toList) =
      ["render_plan missing field: ".toList ++ "fps".toList] :=
  ⟨claim_C5_theorem.1 "hybrid".toList (by decide) "auto".toList (by decide)
      "true".toList (by decide) "4444".toList (by decide) "off".toList
      (by decide),
   claim_C5_theorem.2.1 "fps".toList (by decide)⟩

set_option maxRecDepth 40000 in
set_option maxHeartbeats 4000000 in
/-- C3 (amended): `validate_schema` performs no cross-field consistency
check: every enum-valid combination of alpha, prores_profile, backend and
determinism_mode passes with no errors, including the combinations that
are inconsistent with the derivations used by the server (prores 4444 iff
alpha, determinism on iff software backend). -/
theorem claim_C3_theorem :
    ∀ a ∈ alphaVals, ∀ p ∈ proresVals, ∀ b ∈ backendVals, ∀ d ∈ detVals,
      validate_schema (mkValidDoc "raster".toList b a p d) = [] := by
  decide

set_option maxRecDepth 40000 in
set_option maxHeartbeats 1000000 in
/-- C3 counterexample: the document whose table has alpha=true with
prores_profile=422hq (and backend=software with determinism_mode=off)
validates with an empty error list: no derived-field inconsistency error
is reported, refuting the original claim. -/
theorem claim_C3_counterexample :
    dictGet (parse_render_plan_table
      (dictGetD (parse_sections c3doc) "render_plan".toList []))
      "alpha".toList = some "true".toList ∧
    dictGet (parse_render_plan_table
      (dictGetD (parse_sections c3doc) "render_plan".toList []))
      "prores_profile".toList = some "422hq".toList ∧
    validate_schema c3doc = [] := by
  decide

/-- C3 witness: the inconsistent combination alpha=true,
prores_profile=422hq on the gpu backend with determinism on passes. -/
theorem claim_C3_witness :
    validate_schema (mkValidDoc "raster".toList "gpu".toList "true".toList
      "422hq".toList "on".toList) = [] :=
  claim_C3_theorem "true".toList (by decide) "422hq".toList (by decide)
    "gpu".toList (by decide) "on".toList (by decide)

end VCR
